import Mathlib

/-!
Verification of the Flask-Handler dispatch layer (`src/flaskext/handler.py`).

The file embeds the module shallowly:

* Python values that flow through the pipeline (path keyword arguments,
  validator results, business results, rendered output) become the inductive
  type `Value`; `Value.vjson v` marks the JSON response that `flask.jsonify`
  builds from `v`.
* Python exceptions become the inductive type `PyErr`; fallible code returns
  `Except PyErr Value`.  Note that line 166 of the source evaluates the
  undefined name `meth` while building the `MethodNotAllowed` message, so the
  exception that actually escapes `_resolve_rest_verb` is a `NameError`.
* The Flask request is the record `Request` (method, form fields, and the
  combined `values` multidict); `flask.render_template` is the abstract
  collaborator `Env.renderTemplate`, taking the template path and the keyword
  context (the source calls it with the path only, i.e. an empty context,
  because the forwarding of `context_dict` is commented out on line 13).
* A handler class becomes `HandlerDef`; Python attribute lookup on
  `self.CUSTOM_RENDERER`, `self.METHOD_HACK`, ... resolves to exactly one
  value per class, so each attribute is one field whose default is the
  `BaseHandler` class attribute; a subclass that overrides the attribute
  replaces the field value wholesale.  Verb methods and validators are the
  partial maps `verbMethod` and `validator`, keyed by the lower-case
  attribute name (`hasattr` is `Option.isSome`).
* `BaseHandler.__init__` is `initHandler`, `BaseHandler.__call__` is
  `callHandler`; the `with self:` block of `__call__` is made observable by a
  trace of `Event`s: `Event.enter`/`Event.exitHook` are the `__enter__` and
  `__exit__` hooks, and the pipeline records when a validator, a business
  method (with its call shape) or a renderer is invoked.  The source computes
  the renderer before resolving the verb; both steps are pure, so the
  embedding evaluates `findRenderer` at its point of use.
-/

namespace FlaskHandler

/-- Python values that the dispatch pipeline passes around. `vjson v` stands
for the JSON response object `flask.jsonify` builds out of `v`. -/
inductive Value where
  | vnone
  | vstr (s : String)
  | vint (n : Int)
  | vlist (xs : List Value)
  | vdict (fields : List (String × Value))
  | vjson (v : Value)

/-- Python exceptions that can escape the dispatch pipeline.
`methodNotAllowed` is `werkzeug.exceptions.MethodNotAllowed` (the spec calls
it `MethodNotAllowedError`), `notImplementedError` is the construction-time
failure of `BaseHandler.__init__` (the spec calls it `ConfigurationError`),
`nameError` is a Python `NameError`, `attributeError` a failed attribute
lookup, and `domainError` stands for any domain exception a validator or
business method raises. -/
inductive PyErr where
  | methodNotAllowed (msg : String)
  | nameError (name : String)
  | notImplementedError (msg : String)
  | attributeError (name : String)
  | domainError (msg : String)
deriving DecidableEq, Repr

/-- The per-request data the HTTP layer supplies: the declared method, the
form-field lookup (`flask.request.form`) and the combined query/form
parameter lookup (`flask.request.values`). -/
structure Request where
  method : String
  form : List (String × String)
  values : List (String × String)
deriving DecidableEq, Repr

/-- Path-derived keyword arguments (the `**kwargs` of `__call__`). -/
abbrev Kwargs := List (String × Value)

/-- The shape in which the business method is invoked (lines 129-134 of the
source): positionally spread, spread as named parameters, or one positional
value wrapped in `positional [v]`. -/
inductive CallArgs where
  | positional (args : List Value)
  | named (kwargs : Kwargs)

/-- A rendering function from the renderer registry. -/
abbrev RendererFn := Value → Except PyErr Value

/-- A verb-named business method. -/
abbrev BusinessFn := CallArgs → Except PyErr Value

/-- A `validate_<verb>_request` method: receives the incoming request and the
path-derived keyword arguments. -/
abbrev ValidatorFn := Request → Kwargs → Except PyErr Value

/-- The template-engine collaborator: `flask.render_template` receives a
template path and keyword context. The source calls it with the path only,
which in Python is the same call as passing an empty keyword context. -/
structure Env where
  renderTemplate : String → Kwargs → Except PyErr Value

/-- First-match association-list lookup, the embedding of `dict.get` /
`MultiDict.get` (returns the first value stored under the key). -/
def assocGet {β : Type} (xs : List (String × β)) (k : String) : Option β :=
  match xs with
  | [] => none
  | (key, v) :: rest => if key = k then some v else assocGet rest k

/-- Lookup in `flask.request.form`. -/
def formGet (req : Request) (k : String) : Option String :=
  assocGet req.form k

/-- Lookup in `flask.request.values`. -/
def valuesGet (req : Request) (k : String) : Option String :=
  assocGet req.values k

/-- ASCII upper-casing of one character. The strings the source upper-cases
are HTTP verb names, for which Python `str.upper()` is exactly the ASCII
mapping. -/
def upperChar (c : Char) : Char :=
  if 97 ≤ c.toNat ∧ c.toNat ≤ 122 then Char.ofNat (c.toNat - 32) else c

/-- The embedding of `str.upper()` on verb names. -/
def upperStr (s : String) : String := String.mk (s.data.map upperChar)

/-- ASCII lower-casing of one character. -/
def lowerChar (c : Char) : Char :=
  if 65 ≤ c.toNat ∧ c.toNat ≤ 90 then Char.ofNat (c.toNat + 32) else c

/-- The embedding of `str.lower()` on verb names. -/
def lowerStr (s : String) : String := String.mk (s.data.map lowerChar)

/-- Python truthiness of an optional-string attribute: `None` and the empty
string are falsy, every other string is truthy. -/
def truthyStr : Option String → Bool
  | none => false
  | some s => s != ""

/-- Line 9 of the source: `POSSIBLE_METHODS = "GET", "POST", "PUT", "DELETE",
"HEAD"`. -/
def POSSIBLE_METHODS : List String := ["GET", "POST", "PUT", "DELETE", "HEAD"]

/-- The model of `flask.jsonify`: wraps the value into a JSON response. -/
def jsonify : RendererFn := fun v => Except.ok (Value.vjson v)

/-- Line 91 of the source: the `BaseHandler.CUSTOM_RENDERER` class attribute,
the shared built-in renderer map. -/
def defaultCustomRenderer : List (String × RendererFn) := [("json", jsonify)]

/-- A handler class definition. Field defaults are the `BaseHandler` class
attributes (lines 77-91): `ROUTE = None`, `TEMPLATE_NAME = None`,
`DEFAULT_FORMAT = "html"`, `METHOD_HACK = "__method__"`, `CUSTOM_RENDERER =`
the shared built-in map. Python attribute lookup resolves each attribute to
exactly one value, so a subclass overriding an attribute replaces the field
value wholesale. `verbMethod` maps a lower-case verb name to the business
method if the class provides it; `validator` maps a lower-case verb to the
`validate_<verb>_request` method if present. -/
structure HandlerDef where
  ROUTE : Option String := none
  TEMPLATE_NAME : Option String := none
  DEFAULT_FORMAT : String := "html"
  METHOD_HACK : Option String := some "__method__"
  CUSTOM_RENDERER : List (String × RendererFn) := defaultCustomRenderer
  verbMethod : String → Option BusinessFn := fun _ => none
  validator : String → Option ValidatorFn := fun _ => none

/-- A constructed handler instance: the definition plus the `self.METHODS`
list computed by `__init__`. -/
structure Handler extends HandlerDef where
  METHODS : List String

/-- Lines 93-99 of the source, `BaseHandler.__init__`: raise
`NotImplementedError` when `self.ROUTE is None`, otherwise compute
`self.METHODS = [meth for meth in POSSIBLE_METHODS if hasattr(self,
meth.lower())]`. -/
def initHandler (d : HandlerDef) : Except PyErr Handler :=
  match d.ROUTE with
  | none => Except.error (PyErr.notImplementedError
      "A BaseHandler implementation must include self.ROUTE")
  | some _ => Except.ok
      { toHandlerDef := d
        METHODS := POSSIBLE_METHODS.filter (fun m => (d.verbMethod (lowerStr m)).isSome) }

/-- Lines 160-164 of the source: the effective method before the capability
check. Start from `flask.request.method`; when the method is `POST` and
`self.METHOD_HACK` is truthy, read that form field and, when it is truthy
(present and non-empty), use its value instead. -/
def effectiveVerb (h : Handler) (req : Request) : String :=
  if req.method = "POST" ∧ truthyStr h.METHOD_HACK = true then
    match h.METHOD_HACK with
    | some field =>
      match formGet req field with
      | some fake_meth => if fake_meth ≠ "" then fake_meth else req.method
      | none => req.method
    | none => req.method
  else req.method

/-- Lines 159-167 of the source, `BaseHandler._resolve_rest_verb`: when the
upper-cased effective method is not in `self.METHODS` the source executes
`raise error.MethodNotAllowed("% is an invalid method" % meth)`; evaluating
the argument reads the undefined name `meth`, so the exception that actually
escapes is `NameError("meth")`, not `MethodNotAllowed`. -/
def resolveRestVerb (h : Handler) (req : Request) : Except PyErr String :=
  let method := effectiveVerb h req
  if upperStr method ∈ h.METHODS then Except.ok method
  else Except.error (PyErr.nameError "meth")

/-- Lines 11-14 of the source, `_jinja_renderer`: the returned closure calls
`flask.render_template(path)` only — the forwarding of `context_dict` is
commented out on line 13, so the context argument is ignored and the engine
receives an empty keyword context. -/
def jinjaRenderer (path : String) (env : Env) : RendererFn :=
  fun _context_dict => env.renderTemplate path []

/-- Lines 150-152 of the source: requested `format` parameter from
`flask.request.values` when present, else `self.DEFAULT_FORMAT`. -/
def resolvedFormat (h : Handler) (req : Request) : String :=
  match valuesGet req "format" with
  | some f => f
  | none => h.DEFAULT_FORMAT

/-- Lines 149-157 of the source, `BaseHandler._find_renderer`: custom
renderer entry if the resolved format is a key of `self.CUSTOM_RENDERER`,
else the jinja renderer for `"<TEMPLATE_NAME>.<format>"` when
`self.TEMPLATE_NAME` is truthy, else no renderer. -/
def findRenderer (h : Handler) (env : Env) (req : Request) : Option RendererFn :=
  let format := resolvedFormat h req
  match assocGet h.CUSTOM_RENDERER format with
  | some r => some r
  | none =>
    match h.TEMPLATE_NAME with
    | some t => if t ≠ "" then some (jinjaRenderer (t ++ "." ++ format) env) else none
    | none => none

/-- Lines 129-134 of the source: `isinstance(params, (list, tuple))` spreads
positionally, `isinstance(params, dict)` spreads as named parameters, any
other value is passed as one positional parameter. -/
def shapeArgs (params : Value) : CallArgs :=
  match params with
  | Value.vlist xs => CallArgs.positional xs
  | Value.vdict d => CallArgs.named d
  | v => CallArgs.positional [v]

/-- Lines 125-128 of the source: the parameter set is the validator result
when `validate_<verb>_request` exists, else the path keyword arguments. -/
def resolveParams (h : Handler) (verb : String) (req : Request) (kwargs : Kwargs) :
    Except PyErr Value :=
  match h.validator verb with
  | some f => f req kwargs
  | none => Except.ok (Value.vdict kwargs)

/-- Observable events of one dispatch: the `__enter__` and `__exit__` hooks
of the `with self:` block and the pipeline invoking a validator, a business
method (with its call shape) or a renderer. -/
inductive Event where
  | enter
  | exitHook
  | validatorCalled (verb : String)
  | businessCalled (verb : String) (args : CallArgs)
  | rendererApplied

/-- Trace contribution of the validator lookup: `validate_<verb>_request` is
invoked exactly when it exists. -/
def validatorEvents (h : Handler) (verb : String) : List Event :=
  match h.validator verb with
  | some _ => [Event.validatorCalled verb]
  | none => []

/-- Lines 119-139 of the source: the body of `BaseHandler.__call__` inside
the `with self:` block. Resolve the verb (`verb =
self._resolve_rest_verb().lower()`), look up the business method with
`getattr(self, verb)` (an absent attribute would be an `AttributeError`;
unreachable for a constructed handler), resolve the parameter set, invoke
the business method in the shape given by `shapeArgs`, and apply the
renderer from `_find_renderer` when one exists. Any exception propagates. -/
def callBody (h : Handler) (env : Env) (req : Request) (kwargs : Kwargs) :
    Except PyErr Value × List Event :=
  match resolveRestVerb h req with
  | Except.error e => (Except.error e, [])
  | Except.ok m =>
    match h.verbMethod (lowerStr m) with
    | none => (Except.error (PyErr.attributeError (lowerStr m)), [])
    | some business =>
      match resolveParams h (lowerStr m) req kwargs with
      | Except.error e => (Except.error e, validatorEvents h (lowerStr m))
      | Except.ok params =>
        match business (shapeArgs params) with
        | Except.error e =>
            (Except.error e,
             validatorEvents h (lowerStr m)
               ++ [Event.businessCalled (lowerStr m) (shapeArgs params)])
        | Except.ok context =>
          match findRenderer h env req with
          | some r =>
              (r context,
               validatorEvents h (lowerStr m)
                 ++ [Event.businessCalled (lowerStr m) (shapeArgs params),
                     Event.rendererApplied])
          | none =>
              (Except.ok context,
               validatorEvents h (lowerStr m)
                 ++ [Event.businessCalled (lowerStr m) (shapeArgs params)])

/-- Lines 101-139 of the source, `BaseHandler.__call__`: the body runs inside
`with self:`, so `__enter__` fires first and `__exit__` fires exactly once
afterwards whether the body returns or raises; the base `__exit__` returns
`None`, so an exception propagates unchanged. -/
def callHandler (h : Handler) (env : Env) (req : Request) (kwargs : Kwargs) :
    Except PyErr Value × List Event :=
  let body := callBody h env req kwargs
  (body.1, Event.enter :: body.2 ++ [Event.exitHook])

/-- The business-method invocations recorded in a trace, in order. -/
def businessCalls (tr : List Event) : List (String × CallArgs) :=
  tr.filterMap fun e =>
    match e with
    | Event.businessCalled v a => some (v, a)
    | _ => none

/-- Recognizer for the setup-hook event. -/
def Event.isEnter : Event → Bool
  | Event.enter => true
  | _ => false

/-- Recognizer for the teardown-hook event. -/
def Event.isExitHook : Event → Bool
  | Event.exitHook => true
  | _ => false

/-- Number of events in a trace that satisfy a recognizer. -/
def countEvent (tr : List Event) (p : Event → Bool) : Nat :=
  match tr with
  | [] => 0
  | e :: rest => (if p e then 1 else 0) + countEvent rest p

theorem countEvent_append (a b : List Event) (p : Event → Bool) :
    countEvent (a ++ b) p = countEvent a p + countEvent b p := by
  induction a with
  | nil => simp [countEvent]
  | cons e rest ih => simp [countEvent, ih, Nat.add_assoc]

theorem countEvent_validatorEvents (h : Handler) (v : String) (p : Event → Bool)
    (hv : ∀ w, p (Event.validatorCalled w) = false) :
    countEvent (validatorEvents h v) p = 0 := by
  unfold validatorEvents
  split <;> simp [countEvent, hv]

theorem callBody_countEvent_zero (h : Handler) (env : Env) (req : Request)
    (kwargs : Kwargs) (p : Event → Bool)
    (hv : ∀ v, p (Event.validatorCalled v) = false)
    (hb : ∀ v a, p (Event.businessCalled v a) = false)
    (hr : p Event.rendererApplied = false) :
    countEvent (callBody h env req kwargs).2 p = 0 := by
  have hve : ∀ w, countEvent (validatorEvents h w) p = 0 :=
    fun w => countEvent_validatorEvents h w p hv
  unfold callBody
  split
  · simp [countEvent]
  · split
    · simp [countEvent]
    · split
      · simpa using hve _
      · split
        · simp [countEvent_append, countEvent, hb, hve]
        · split
          · simp [countEvent_append, countEvent, hb, hr, hve]
          · simp [countEvent_append, countEvent, hb, hve]

/-- A handler definition with a route and no verb methods at all. -/
def zeroVerbDef : HandlerDef := { ROUTE := some "/" }

/-- A handler definition without a route. -/
def routelessDef : HandlerDef := { }

/-- A handler class implementing `get` and `put`. -/
def getPutDef : HandlerDef :=
  { ROUTE := some "/gp"
    verbMethod := fun name =>
      if name = "get" ∨ name = "put" then some (fun _ => Except.ok (Value.vstr "ok"))
      else none }

/-- The constructed instance of `getPutDef`; `initHandler_getPutDef` checks it
is what `__init__` builds. -/
def getPutHandler : Handler :=
  { toHandlerDef := getPutDef
    METHODS := POSSIBLE_METHODS.filter (fun m => (getPutDef.verbMethod (lowerStr m)).isSome) }

theorem initHandler_getPutDef : initHandler getPutDef = Except.ok getPutHandler := rfl

/-- C9: for every handler definition, construction fails with the
configuration error (the `NotImplementedError` of `__init__`, which the spec
names `ConfigurationError`) if and only if the route is unset; with a route
set, construction succeeds, even when the handler implements zero verbs. -/
theorem init_fails_iff_route_unset (d : HandlerDef) :
    ((initHandler d).isOk = true ↔ d.ROUTE ≠ none) ∧
    (d.ROUTE = none → initHandler d = Except.error (PyErr.notImplementedError
      "A BaseHandler implementation must include self.ROUTE")) := by
  cases hr : d.ROUTE with
  | none => simp [initHandler, hr, Except.isOk, Except.toBool]
  | some r => simp [initHandler, hr, Except.isOk, Except.toBool]

/-- Witness for C9: the zero-verb definition with a route constructs
successfully, and the routeless definition fails with the configuration
error. -/
theorem init_fails_iff_route_unset_witness :
    (initHandler zeroVerbDef).isOk = true ∧
    initHandler routelessDef = Except.error (PyErr.notImplementedError
      "A BaseHandler implementation must include self.ROUTE") :=
  ⟨(init_fails_iff_route_unset zeroVerbDef).1.mpr (by simp [zeroVerbDef]),
   (init_fails_iff_route_unset routelessDef).2 rfl⟩

/-- C4: for every successfully constructed handler, the capability set
`METHODS` holds exactly the verbs among GET, POST, PUT, DELETE, HEAD whose
lower-cased method the handler provides; the handler also carries its
definition unchanged (`METHODS` is computed once by `__init__` and nothing in
the module mutates it afterwards). -/
theorem capabilities_eq_implemented_verbs (d : HandlerDef) (h : Handler)
    (hinit : initHandler d = Except.ok h) :
    h.toHandlerDef = d ∧
    ∀ verb, verb ∈ h.METHODS ↔
      verb ∈ POSSIBLE_METHODS ∧ (d.verbMethod (lowerStr verb)).isSome = true := by
  unfold initHandler at hinit
  cases hr : d.ROUTE with
  | none => rw [hr] at hinit; cases hinit
  | some r =>
    rw [hr] at hinit
    cases hinit
    refine ⟨rfl, fun verb => ?_⟩
    simp [List.mem_filter]

/-- Witness for C4 on the get/put handler: PUT is a capability, DELETE is
not. -/
theorem capabilities_eq_implemented_verbs_witness :
    ("PUT" ∈ getPutHandler.METHODS ↔
      "PUT" ∈ POSSIBLE_METHODS ∧ (getPutDef.verbMethod (lowerStr "PUT")).isSome = true) ∧
    ("DELETE" ∈ getPutHandler.METHODS ↔
      "DELETE" ∈ POSSIBLE_METHODS ∧ (getPutDef.verbMethod (lowerStr "DELETE")).isSome = true) :=
  ⟨(capabilities_eq_implemented_verbs getPutDef getPutHandler initHandler_getPutDef).2 "PUT",
   (capabilities_eq_implemented_verbs getPutDef getPutHandler initHandler_getPutDef).2 "DELETE"⟩

/-- C8: for every dispatch, the setup hook is the first event of the trace
(it runs before verb resolution, which happens inside the `with` body), the
teardown hook is the last event and occurs exactly once — also when the body
stops early with an error — and the result of the dispatch is exactly the
result of the body: an error propagates unchanged, with no local recovery or
translation. -/
theorem dispatch_hooks_wrap_pipeline (h : Handler) (env : Env) (req : Request)
    (kwargs : Kwargs) :
    (callHandler h env req kwargs).2.head? = some Event.enter ∧
    (callHandler h env req kwargs).2.getLast? = some Event.exitHook ∧
    countEvent (callHandler h env req kwargs).2 Event.isEnter = 1 ∧
    countEvent (callHandler h env req kwargs).2 Event.isExitHook = 1 ∧
    (callHandler h env req kwargs).1 = (callBody h env req kwargs).1 := by
  have hEnter : countEvent (callBody h env req kwargs).2 Event.isEnter = 0 :=
    callBody_countEvent_zero h env req kwargs Event.isEnter
      (fun _ => rfl) (fun _ _ => rfl) rfl
  have hExit : countEvent (callBody h env req kwargs).2 Event.isExitHook = 0 :=
    callBody_countEvent_zero h env req kwargs Event.isExitHook
      (fun _ => rfl) (fun _ _ => rfl) rfl
  refine ⟨rfl, ?_, ?_, ?_, rfl⟩
  · show (Event.enter :: ((callBody h env req kwargs).2 ++ [Event.exitHook])).getLast?
      = some Event.exitHook
    rw [← List.cons_append, List.getLast?_concat]
  · show countEvent (Event.enter :: ((callBody h env req kwargs).2 ++ [Event.exitHook]))
      Event.isEnter = 1
    simp [countEvent, countEvent_append, hEnter, Event.isEnter]
  · show countEvent (Event.enter :: ((callBody h env req kwargs).2 ++ [Event.exitHook]))
      Event.isExitHook = 1
    simp [countEvent, countEvent_append, hExit, Event.isExitHook]

/-- Modelled from the spec, claim C1 as stated: the effective verb equals the
override field value when the request method is POST, the override field name
is configured (non-null) and that form field is present with a non-empty
value; for every other request it equals the literal request method. -/
def claimedEffectiveVerb (h : Handler) (req : Request) : String :=
  match h.METHOD_HACK with
  | some field =>
    match formGet req field with
    | some v => if req.method = "POST" ∧ v ≠ "" then v else req.method
    | none => req.method
  | none => req.method

/-- Modelled from the spec, claim C1 amended: as C1, except that the override
also requires the configured field name to be non-empty (line 161 of the
source tests Python truthiness of `self.METHOD_HACK`, and the empty string is
falsy, like `None`). -/
def claimedEffectiveVerbAmended (h : Handler) (req : Request) : String :=
  match h.METHOD_HACK with
  | some field =>
    match formGet req field with
    | some v => if req.method = "POST" ∧ field ≠ "" ∧ v ≠ "" then v else req.method
    | none => req.method
  | none => req.method

/-- A handler class that sets `METHOD_HACK = ""`: a non-null override field
name that Python truthiness treats as disabled. -/
def emptyHackDef : HandlerDef :=
  { ROUTE := some "/eh"
    METHOD_HACK := some ""
    verbMethod := fun name =>
      if name = "post" ∨ name = "put" then some (fun _ => Except.ok (Value.vstr name))
      else none }

/-- The constructed instance of `emptyHackDef`. -/
def emptyHackHandler : Handler :=
  { toHandlerDef := emptyHackDef
    METHODS := POSSIBLE_METHODS.filter (fun m => (emptyHackDef.verbMethod (lowerStr m)).isSome) }

theorem initHandler_emptyHackDef : initHandler emptyHackDef = Except.ok emptyHackHandler := rfl

/-- A POST request whose form carries the field named by the empty string,
with the non-empty value PUT. -/
def emptyFieldReq : Request :=
  { method := "POST", form := [("", "PUT")], values := [("", "PUT")] }

/-- Counterexample to C1 as stated: `emptyHackHandler` configures the
non-null override field name `""`, and `emptyFieldReq` is a POST carrying
that field with the non-empty value `"PUT"`; the claim prescribes effective
verb `"PUT"`, but the source keeps the literal method `"POST"` because line
161 tests Python truthiness of `self.METHOD_HACK` and `""` is falsy. -/
theorem effective_verb_claim_counterexample :
    effectiveVerb emptyHackHandler emptyFieldReq = "POST" ∧
    claimedEffectiveVerb emptyHackHandler emptyFieldReq = "PUT" ∧
    effectiveVerb emptyHackHandler emptyFieldReq ≠
      claimedEffectiveVerb emptyHackHandler emptyFieldReq := by
  refine ⟨rfl, rfl, fun hcontra => ?_⟩
  rw [show effectiveVerb emptyHackHandler emptyFieldReq = "POST" from rfl,
      show claimedEffectiveVerb emptyHackHandler emptyFieldReq = "PUT" from rfl] at hcontra
  simp at hcontra

/-- C1 amended: for every handler and request, the effective verb computed by
lines 159-164 equals the override field value exactly when the method is
POST, the override field name is configured and non-empty, and that form
field is present with a non-empty value; otherwise it equals the literal
request method. -/
theorem effective_verb_resolution (h : Handler) (req : Request) :
    effectiveVerb h req = claimedEffectiveVerbAmended h req := by
  cases hm : h.METHOD_HACK with
  | none => simp [effectiveVerb, claimedEffectiveVerbAmended, truthyStr, hm]
  | some field =>
    cases hf : formGet req field with
    | none =>
      simp [effectiveVerb, claimedEffectiveVerbAmended, truthyStr, hm, hf]
    | some v =>
      by_cases hfe : field = ""
      · subst hfe
        simp [effectiveVerb, claimedEffectiveVerbAmended, truthyStr, hm, hf]
      · by_cases hp : req.method = "POST" <;>
          by_cases hv : v = "" <;>
            simp [effectiveVerb, claimedEffectiveVerbAmended, truthyStr, hm, hf,
                  hp, hfe, hv]

/-- A handler class that renames the override field to `"x"` and implements
`post` and `put` with distinguishable results. -/
def renamedHackDef : HandlerDef :=
  { ROUTE := some "/rh"
    METHOD_HACK := some "x"
    verbMethod := fun name =>
      if name = "post" then some (fun _ => Except.ok (Value.vstr "post-ran"))
      else if name = "put" then some (fun _ => Except.ok (Value.vstr "put-ran"))
      else none }

/-- The constructed instance of `renamedHackDef`. -/
def renamedHackHandler : Handler :=
  { toHandlerDef := renamedHackDef
    METHODS := POSSIBLE_METHODS.filter (fun m => (renamedHackDef.verbMethod (lowerStr m)).isSome) }

theorem initHandler_renamedHackDef :
    initHandler renamedHackDef = Except.ok renamedHackHandler := rfl

/-- A POST request carrying the non-empty form field `__method__` = PUT. -/
def magicPutReq : Request :=
  { method := "POST", form := [("__method__", "PUT")], values := [("__method__", "PUT")] }

/-- A template environment that echoes back the path and the context it
receives, making visible exactly what the core hands to the engine. -/
def echoEnv : Env :=
  { renderTemplate := fun path ctx =>
      Except.ok (Value.vlist [Value.vstr path, Value.vdict ctx]) }

/-- Counterexample to C10 as stated: `renamedHackHandler` sets the override
field name to the non-null `"x"`, so it did not set it to null; yet the POST
request carrying the non-empty `"__method__" = "PUT"` form field is
dispatched to `post`, not to `put` as the claim prescribes. -/
theorem method_hack_default_counterexample :
    effectiveVerb renamedHackHandler magicPutReq = "POST" ∧
    (callHandler renamedHackHandler echoEnv magicPutReq []).1
      = Except.ok (Value.vstr "post-ran") ∧
    businessCalls (callHandler renamedHackHandler echoEnv magicPutReq []).2
      = [("post", CallArgs.named [])] ∧
    (Except.ok (Value.vstr "post-ran") : Except PyErr Value)
      ≠ Except.ok (Value.vstr "put-ran") := by
  refine ⟨rfl, rfl, rfl, fun hcontra => ?_⟩
  simp at hcontra

/-- C10 amended: the override mechanism is enabled by default — the
`METHOD_HACK` default of `HandlerDef` is `"__method__"`, mirroring the
`BaseHandler` class attribute — and for every handler that keeps that
default field name, a POST request whose `__method__` form field holds a
non-empty value `v` resolves to effective verb `v`; when the upper-cased `v`
is a capability, verb resolution returns `v` instead of POST, so the
dispatch proceeds with `v`. -/
theorem method_hack_default_dispatch (h : Handler) (req : Request) (v : String)
    (hd : h.METHOD_HACK = some "__method__") (hm : req.method = "POST")
    (hf : formGet req "__method__" = some v) (hv : v ≠ "") :
    ({ ROUTE := some "/" } : HandlerDef).METHOD_HACK = some "__method__" ∧
    effectiveVerb h req = v ∧
    (upperStr v ∈ h.METHODS → resolveRestVerb h req = Except.ok v) := by
  have he : effectiveVerb h req = v := by
    simp [effectiveVerb, truthyStr, hd, hm, hf, hv]
  refine ⟨rfl, he, fun hmem => ?_⟩
  simp [resolveRestVerb, he, hmem]

/-- A handler class keeping every default attribute and implementing `post`
and `put`. -/
def postPutDef : HandlerDef :=
  { ROUTE := some "/pp"
    verbMethod := fun name =>
      if name = "post" then some (fun _ => Except.ok (Value.vstr "post-ran"))
      else if name = "put" then some (fun _ => Except.ok (Value.vstr "put-ran"))
      else none }

/-- The constructed instance of `postPutDef`. -/
def postPutHandler : Handler :=
  { toHandlerDef := postPutDef
    METHODS := POSSIBLE_METHODS.filter (fun m => (postPutDef.verbMethod (lowerStr m)).isSome) }

theorem initHandler_postPutDef : initHandler postPutDef = Except.ok postPutHandler := rfl

/-- Witness for the amended C10: a handler with the default override field
and a `put` capability resolves the POST-with-override request to PUT. -/
theorem method_hack_default_dispatch_witness :
    ({ ROUTE := some "/" } : HandlerDef).METHOD_HACK = some "__method__" ∧
    effectiveVerb postPutHandler magicPutReq = "PUT" ∧
    resolveRestVerb postPutHandler magicPutReq = Except.ok "PUT" := by
  have hw := method_hack_default_dispatch postPutHandler magicPutReq "PUT"
    rfl rfl rfl (by simp)
  exact ⟨hw.1, hw.2.1, hw.2.2 (by decide)⟩

/-- A business method that returns the string `"hello"`. -/
def helloBusiness : BusinessFn := fun _ => Except.ok (Value.vstr "hello")

/-- A handler class implementing only `get`. -/
def getOnlyDef : HandlerDef :=
  { ROUTE := some "/g"
    verbMethod := fun name => if name = "get" then some helloBusiness else none }

/-- The constructed instance of `getOnlyDef`. -/
def getOnlyHandler : Handler :=
  { toHandlerDef := getOnlyDef
    METHODS := POSSIBLE_METHODS.filter (fun m => (getOnlyDef.verbMethod (lowerStr m)).isSome) }

theorem initHandler_getOnlyDef : initHandler getOnlyDef = Except.ok getOnlyHandler := rfl

/-- A DELETE request with no form or query parameters. -/
def deleteReq : Request := { method := "DELETE", form := [], values := [] }

/-- C2, code bug: dispatching DELETE to a GET-only handler does fail before
any business method runs (the trace holds no business call), but the escaping
exception is not `MethodNotAllowed` carrying the attempted verb: line 166 of
the source evaluates the undefined name `meth` while formatting the message
of the `MethodNotAllowed` it tries to raise, so a `NameError` escapes
instead. The claim matches the evident intent of the `raise` statement (the
spec itself flags the formatting defect); the code slips. -/
theorem method_not_allowed_name_error :
    (callHandler getOnlyHandler echoEnv deleteReq []).1
      = Except.error (PyErr.nameError "meth") ∧
    businessCalls (callHandler getOnlyHandler echoEnv deleteReq []).2 = [] ∧
    (callHandler getOnlyHandler echoEnv deleteReq []).2 = [Event.enter, Event.exitHook] :=
  ⟨rfl, rfl, rfl⟩

/-- The handler of the class docstring example: `TEMPLATE_NAME = "profile"`
and a `get` returning a dict. -/
def profileDef : HandlerDef :=
  { ROUTE := some "/me"
    TEMPLATE_NAME := some "profile"
    verbMethod := fun name =>
      if name = "get" then
        some (fun _ => Except.ok (Value.vdict [("id", Value.vint 1)]))
      else none }

/-- The constructed instance of `profileDef`. -/
def profileHandler : Handler :=
  { toHandlerDef := profileDef
    METHODS := POSSIBLE_METHODS.filter (fun m => (profileDef.verbMethod (lowerStr m)).isSome) }

theorem initHandler_profileDef : initHandler profileDef = Except.ok profileHandler := rfl

/-- A GET request with no parameters: the format falls back to the default
`"html"`, which has no entry in the built-in renderer map. -/
def plainGetReq : Request := { method := "GET", form := [], values := [] }

/-- Modelled from the spec (section 6 and claim C6): the template engine
receives both the template identifier and the business result as the context
object; for a dict result the context is its fields. -/
def specTemplateOutput (env : Env) (name fmt : String) (result : Value) :
    Except PyErr Value :=
  env.renderTemplate (name ++ "." ++ fmt)
    (match result with
     | Value.vdict fields => fields
     | v => [("context", v)])

/-- C6, code bug: with `TEMPLATE_NAME = "profile"` and resolved format
`"html"` (no registry entry), the source hands the template engine the
identifier `"profile.html"` with an empty context — line 13 comments out the
forwarding of `context_dict`, although the closure is named
`render_from_dict` and takes the context — so the business result
`dict(id=1)` never reaches the engine, contrary to the claim and to the
engine contract of spec section 6. -/
theorem template_context_dropped :
    (callHandler profileHandler echoEnv plainGetReq []).1
      = Except.ok (Value.vlist [Value.vstr "profile.html", Value.vdict []]) ∧
    specTemplateOutput echoEnv "profile" "html" (Value.vdict [("id", Value.vint 1)])
      = Except.ok (Value.vlist [Value.vstr "profile.html",
          Value.vdict [("id", Value.vint 1)]]) ∧
    (callHandler profileHandler echoEnv plainGetReq []).1
      ≠ specTemplateOutput echoEnv "profile" "html" (Value.vdict [("id", Value.vint 1)]) := by
  refine ⟨rfl, rfl, fun hcontra => ?_⟩
  rw [show (callHandler profileHandler echoEnv plainGetReq []).1
        = Except.ok (Value.vlist [Value.vstr "profile.html", Value.vdict []]) from rfl,
      show specTemplateOutput echoEnv "profile" "html" (Value.vdict [("id", Value.vint 1)])
        = Except.ok (Value.vlist [Value.vstr "profile.html",
            Value.vdict [("id", Value.vint 1)]]) from rfl] at hcontra
  simp at hcontra

/-- The business method of the validated fixture: expects two integers
spread positionally and adds them. -/
def addBusiness : BusinessFn := fun args =>
  match args with
  | CallArgs.positional [Value.vint a, Value.vint b] => Except.ok (Value.vint (a + b))
  | _ => Except.error (PyErr.domainError "unexpected call shape")

/-- The `validate_get_request` of the validated fixture: returns a
two-element list, ignoring the raw kwargs. -/
def pairValidator : ValidatorFn := fun _ _ =>
  Except.ok (Value.vlist [Value.vint 7, Value.vint 35])

/-- A handler class with a `get` and a `validate_get_request`. -/
def validatedDef : HandlerDef :=
  { ROUTE := some "/v"
    verbMethod := fun name => if name = "get" then some addBusiness else none
    validator := fun name => if name = "get" then some pairValidator else none }

/-- The constructed instance of `validatedDef`. -/
def validatedHandler : Handler :=
  { toHandlerDef := validatedDef
    METHODS := POSSIBLE_METHODS.filter (fun m => (validatedDef.verbMethod (lowerStr m)).isSome) }

theorem initHandler_validatedDef : initHandler validatedDef = Except.ok validatedHandler := rfl

/-- C3: for every dispatch whose verb resolution returns `m` with the
business method present: when `validate_<verb>_request` exists it is invoked
(the trace records it) and, whenever it returns a parameter set `p` for the
incoming request and path kwargs, the business method is invoked exactly
once, with `p` reshaped by `shapeArgs` — a list or tuple is spread
positionally, a dict is spread as named parameters, any other value is one
positional parameter — never with the raw kwargs; when no validator exists,
the business method is invoked exactly once with the path kwargs spread as
named parameters. -/
theorem validator_result_feeds_business (h : Handler) (env : Env) (req : Request)
    (kwargs : Kwargs) (m : String) (business : BusinessFn)
    (hm : resolveRestVerb h req = Except.ok m)
    (hb : h.verbMethod (lowerStr m) = some business) :
    (∀ f, h.validator (lowerStr m) = some f →
      Event.validatorCalled (lowerStr m) ∈ (callHandler h env req kwargs).2) ∧
    (∀ f p, h.validator (lowerStr m) = some f → f req kwargs = Except.ok p →
      businessCalls (callHandler h env req kwargs).2 = [(lowerStr m, shapeArgs p)]) ∧
    (h.validator (lowerStr m) = none →
      businessCalls (callHandler h env req kwargs).2 = [(lowerStr m, CallArgs.named kwargs)]) := by
  refine ⟨fun f hf => ?_, fun f p hf hp => ?_, fun hnone => ?_⟩
  · simp only [callHandler, callBody, hm, hb, resolveParams, hf]
    cases hfp : f req kwargs with
    | error e => simp [hfp, validatorEvents, hf]
    | ok p =>
      cases hbz : business (shapeArgs p) with
      | error e => simp [hfp, hbz, validatorEvents, hf]
      | ok c =>
        cases hr : findRenderer h env req <;>
          simp [hfp, hbz, hr, validatorEvents, hf]
  · simp only [callHandler, callBody, hm, hb, resolveParams, hf, hp]
    cases hbz : business (shapeArgs p) with
    | error e => simp [hbz, businessCalls, validatorEvents, hf]
    | ok c =>
      cases hr : findRenderer h env req <;>
        simp [hbz, hr, businessCalls, validatorEvents, hf]
  · simp only [callHandler, callBody, hm, hb, resolveParams, hnone]
    cases hbz : business (shapeArgs (Value.vdict kwargs)) with
    | error e => simp [hbz, businessCalls, validatorEvents, hnone, shapeArgs]
    | ok c =>
      cases hr : findRenderer h env req <;>
        simp [hbz, hr, businessCalls, validatorEvents, hnone, shapeArgs]

/-- Witness for C3: the validated fixture dispatches GET; the validator is
invoked, the business method is invoked once with the validator result
spread positionally (not with the raw kwargs), and the dispatch returns the
sum it computes. -/
theorem validator_result_feeds_business_witness :
    Event.validatorCalled "get" ∈ (callHandler validatedHandler echoEnv plainGetReq []).2 ∧
    businessCalls (callHandler validatedHandler echoEnv plainGetReq []).2
      = [("get", CallArgs.positional [Value.vint 7, Value.vint 35])] ∧
    (callHandler validatedHandler echoEnv plainGetReq []).1 = Except.ok (Value.vint 42) := by
  have hw := validator_result_feeds_business validatedHandler echoEnv plainGetReq []
    "GET" addBusiness rfl rfl
  exact ⟨hw.1 pairValidator rfl,
    hw.2.1 pairValidator (Value.vlist [Value.vint 7, Value.vint 35]) rfl rfl, rfl⟩

/-- C5: for every dispatch, the renderer format is the requested `format`
parameter when present, else the default format; whenever the pipeline
produces a business result `c` (verb allowed, parameters resolved, business
method returned `c`): if the resolved format has an entry `r` in the
renderer map the final result is `r c` — the business result passed to the
rendering function, its output returned — and if there is no entry and no
template name is set, the final result is the raw `c`, unmodified. -/
theorem renderer_selection (h : Handler) (env : Env) (req : Request) (kwargs : Kwargs)
    (m : String) (business : BusinessFn) (p c : Value)
    (hm : resolveRestVerb h req = Except.ok m)
    (hb : h.verbMethod (lowerStr m) = some business)
    (hp : resolveParams h (lowerStr m) req kwargs = Except.ok p)
    (hc : business (shapeArgs p) = Except.ok c) :
    (∀ f, valuesGet req "format" = some f → resolvedFormat h req = f) ∧
    (valuesGet req "format" = none → resolvedFormat h req = h.DEFAULT_FORMAT) ∧
    (∀ r, assocGet h.CUSTOM_RENDERER (resolvedFormat h req) = some r →
      (callHandler h env req kwargs).1 = r c) ∧
    (assocGet h.CUSTOM_RENDERER (resolvedFormat h req) = none → h.TEMPLATE_NAME = none →
      (callHandler h env req kwargs).1 = Except.ok c) := by
  refine ⟨fun f hf => ?_, fun hf => ?_, fun r hr => ?_, fun hn ht => ?_⟩
  · simp [resolvedFormat, hf]
  · simp [resolvedFormat, hf]
  · have hfr : findRenderer h env req = some r := by simp [findRenderer, hr]
    simp only [callHandler, callBody, hm, hb, hp, hc, hfr]
  · have hfr : findRenderer h env req = none := by simp [findRenderer, hn, ht]
    simp only [callHandler, callBody, hm, hb, hp, hc, hfr]

/-- A GET request asking for `format=json`. -/
def reqFmtJson : Request := { method := "GET", form := [], values := [("format", "json")] }

/-- Witness for C5: the GET-only handler renders its result through the
built-in JSON renderer when `format=json` is requested, and returns the raw
result when the default `"html"` format has no entry and no template is
set. -/
theorem renderer_selection_witness :
    (callHandler getOnlyHandler echoEnv reqFmtJson []).1
      = Except.ok (Value.vjson (Value.vstr "hello")) ∧
    (callHandler getOnlyHandler echoEnv plainGetReq []).1
      = Except.ok (Value.vstr "hello") := by
  have h1 := (renderer_selection getOnlyHandler echoEnv reqFmtJson []
      "GET" helloBusiness (Value.vdict []) (Value.vstr "hello")
      rfl rfl rfl rfl).2.2.1 jsonify rfl
  have h2 := (renderer_selection getOnlyHandler echoEnv plainGetReq []
      "GET" helloBusiness (Value.vdict []) (Value.vstr "hello")
      rfl rfl rfl rfl).2.2.2 rfl rfl
  exact ⟨h1, h2⟩

/-- Modelled from the spec, claim C7: renderer lookup that checks the
handler-local entries first and falls back to the shared built-in
defaults. -/
def specLayeredLookup (localEntries : List (String × RendererFn)) (fmt : String) :
    Option RendererFn :=
  match assocGet localEntries fmt with
  | some r => some r
  | none => assocGet defaultCustomRenderer fmt

/-- A handler class that overrides `CUSTOM_RENDERER` with its own map (a
single `"xml"` entry) and implements `get`. -/
def xmlOnlyDef : HandlerDef :=
  { ROUTE := some "/x"
    CUSTOM_RENDERER := [("xml", fun _ => Except.ok (Value.vstr "xml-out"))]
    verbMethod := fun name => if name = "get" then some helloBusiness else none }

/-- The constructed instance of `xmlOnlyDef`. -/
def xmlOnlyHandler : Handler :=
  { toHandlerDef := xmlOnlyDef
    METHODS := POSSIBLE_METHODS.filter (fun m => (xmlOnlyDef.verbMethod (lowerStr m)).isSome) }

theorem initHandler_xmlOnlyDef : initHandler xmlOnlyDef = Except.ok xmlOnlyHandler := rfl

/-- Counterexample to C7 as stated: a handler that adds its own override
entries (`"xml"`) no longer resolves the built-in `"json"` format. Python
attribute lookup makes the override replace the registry consulted — there
is no layering: the dispatch returns the raw business result, although the
layered lookup the claim describes would find the built-in JSON renderer
(whose output on this result would be the JSON response, a different
value). -/
theorem renderer_registry_counterexample :
    (callHandler xmlOnlyHandler echoEnv reqFmtJson []).1 = Except.ok (Value.vstr "hello") ∧
    findRenderer xmlOnlyHandler echoEnv reqFmtJson = none ∧
    (specLayeredLookup xmlOnlyDef.CUSTOM_RENDERER "json").isSome = true ∧
    (Except.ok (Value.vstr "hello") : Except PyErr Value)
      ≠ Except.ok (Value.vjson (Value.vstr "hello")) := by
  refine ⟨rfl, rfl, rfl, fun hcontra => ?_⟩
  simp at hcontra

/-- C7 amended: the registry a handler consults is the single map its
`CUSTOM_RENDERER` attribute resolves to. Overriding the attribute replaces
the registry wholesale, with no fallback to shared defaults: when the
resolved format has no entry in the handler map and no template name is set,
no renderer applies at all; built-in formats resolve only through the
default map, so a handler keeping the default attribute resolves `"json"`
to the built-in JSON renderer. -/
theorem renderer_registry_single_map (h : Handler) (env : Env) (req : Request) :
    (assocGet h.CUSTOM_RENDERER (resolvedFormat h req) = none → h.TEMPLATE_NAME = none →
      findRenderer h env req = none) ∧
    (h.CUSTOM_RENDERER = defaultCustomRenderer → resolvedFormat h req = "json" →
      findRenderer h env req = some jsonify) := by
  constructor
  · intro hn ht
    simp [findRenderer, hn, ht]
  · intro hcr hf
    simp [findRenderer, hcr, hf, defaultCustomRenderer, assocGet]

/-- Witness for the amended C7: the xml-overriding handler resolves no
renderer for `format=json`, while the handler keeping the default map
resolves the built-in JSON renderer. -/
theorem renderer_registry_single_map_witness :
    findRenderer xmlOnlyHandler echoEnv reqFmtJson = none ∧
    findRenderer getOnlyHandler echoEnv reqFmtJson = some jsonify :=
  ⟨(renderer_registry_single_map xmlOnlyHandler echoEnv reqFmtJson).1 rfl rfl,
   (renderer_registry_single_map getOnlyHandler echoEnv reqFmtJson).2 rfl rfl⟩

end FlaskHandler
